import Mathlib

/-!
Verification of the credit-app transcript analyzer (`src/credit-app/app.py`).

Shallow embedding conventions:
* pandas cell values are modelled post-`astype(str)` as `String`s; a missing
  (NaN) cell renders as the string "nan".
* A pandas numeric value is a rational (`ℚ`); the credit and grade-point
  arithmetic of the program uses only decimal literals and sums, which the
  rational model reproduces exactly.
* Python's `str.strip()` (and pandas `.str.strip()`) is modelled by
  `pyStrip`, removal of leading/trailing whitespace characters.
* `pd.to_numeric(x, errors='coerce')` on a string cell is modelled by
  `to_numeric`, a parser for optionally signed decimal literals; failure
  gives `none` (NaN), and `.fillna(0)` is `Option.getD _ 0`.
* In-place DataFrame column assignment is modelled by returning the
  post-state of the argument frame as an extra component of the result.
* A raised pandas exception that reaches the top-level handler of `main`
  is an `Except.error`.
-/

/-- Python `s.strip()` / pandas `.str.strip()`: drop leading and trailing
whitespace characters. -/
def pyStrip (s : String) : String :=
  ⟨((s.data.dropWhile Char.isWhitespace).reverse.dropWhile Char.isWhitespace).reverse⟩

/-- A pandas cell of the 學分 (credits) column: initially extracted text,
numeric after `analyze_student_grades` coerces the column. -/
inductive Cell where
  | str : String → Cell
  | num : ℚ → Cell
deriving DecidableEq, Repr

/-- Whether a credits cell holds a numeric value. -/
def Cell.isNum : Cell → Bool
  | Cell.str _ => false
  | Cell.num _ => true

/-- One row of the grades DataFrame.  The six leading fields are the
canonical columns `expected_columns = ["學年度","學期","選課代號","科目名稱","學分","GPA"]`;
`gpaNumeric` (GPA_Numeric) and `passed` (是否通過) are the columns that
`analyze_student_grades` adds, absent (`none`) before analysis. -/
structure Row where
  academicYear : String      -- 學年度
  term : String              -- 學期
  courseCode : String        -- 選課代號
  courseName : String        -- 科目名稱
  credits : Cell             -- 學分
  gpa : String               -- GPA
  gpaNumeric : Option ℚ := none   -- GPA_Numeric (added by analysis)
  passed : Option Bool := none    -- 是否通過 (added by analysis)
deriving DecidableEq, Repr

/-- The fixed grade-point association table `gpa_map` of
`parse_gpa_to_numeric`, verbatim from the source. -/
def gpa_map : List (String × ℚ) :=
  [("A+", 4.3), ("A", 4.0), ("A-", 3.7),
   ("B+", 3.3), ("B", 3.0), ("B-", 2.7),
   ("C+", 2.3), ("C", 2.0), ("C-", 1.7),
   ("D+", 1.3), ("D", 1.0), ("D-", 0.7),
   ("E", 0.0), ("F", 0.0),
   ("抵免", 999.0),
   ("通過", 999.0)]

/-- Model of `parse_gpa_to_numeric(gpa_str)`:
`gpa_map.get(gpa_str.strip(), 0.0)`. -/
def parse_gpa_to_numeric (gpa_str : String) : ℚ :=
  (gpa_map.lookup (pyStrip gpa_str)).getD 0.0

/-- Digit list to natural number (helper for the decimal-literal parser). -/
def digitsToNat (cs : List Char) : ℕ :=
  cs.foldl (fun a c => 10 * a + (c.toNat - 48)) 0

/-- Model of `pd.to_numeric(s, errors='coerce')` on a string cell: an
optionally signed decimal literal (integer part, optional fraction part,
at least one digit), with surrounding whitespace allowed; anything else —
including exponent notation, which the program's transcripts never
produce — is a parse failure (NaN, i.e. `none`). -/
def to_numeric (s : String) : Option ℚ :=
  let t := (pyStrip s).data
  let negBody : Bool × List Char :=
    match t with
    | '-' :: r => (true, r)
    | '+' :: r => (false, r)
    | r => (false, r)
  let neg := negBody.1
  let body := negBody.2
  let ip := body.takeWhile Char.isDigit
  let rest := body.drop ip.length
  let mk : List Char → List Char → ℚ := fun intPart fracPart =>
    let n : ℤ := (digitsToNat intPart * 10 ^ fracPart.length + digitsToNat fracPart : ℕ)
    mkRat (if neg then -n else n) (10 ^ fracPart.length)
  match rest with
  | [] => if ip.isEmpty then none else some (mk ip [])
  | '.' :: fr =>
      let fp := fr.takeWhile Char.isDigit
      if (fr.drop fp.length).isEmpty then
        if ip.isEmpty && fp.isEmpty then none else some (mk ip fp)
      else none
  | _ => none

/-- The numeric value a credits cell contributes:
`pd.to_numeric(..., errors='coerce').fillna(0)` on a string cell, identity
on an already numeric one. -/
def coerceCell : Cell → ℚ
  | Cell.str s => (to_numeric s).getD 0
  | Cell.num q => q

/-- Model of `analyze_student_grades(df)`:
```
df['學分'] = pd.to_numeric(df['學分'], errors='coerce').fillna(0)
df['GPA_Numeric'] = df['GPA'].apply(parse_gpa_to_numeric)
df['是否通過'] = df['GPA_Numeric'].apply(lambda x: x >= 1.7)
passed_courses_df = df[df['是否通過'] & (df['學分'] > 0)].copy()
total_earned_credits = passed_courses_df['學分'].sum()
remaining_credits_to_graduate = max(0, GRADUATION_REQUIREMENT - total_earned_credits)
return total_earned_credits, remaining_credits_to_graduate, passed_courses_df
```
with `GRADUATION_REQUIREMENT = 128`.  The three column assignments mutate
the caller's frame; the fourth component of the result is that frame's
post-state. -/
def analyze_student_grades (df : List Row) : ℚ × ℚ × List Row × List Row :=
  let df1 := df.map fun r => { r with credits := Cell.num (coerceCell r.credits) }
  let df2 := df1.map fun r => { r with gpaNumeric := some (parse_gpa_to_numeric r.gpa) }
  let df3 := df2.map fun r => { r with passed := some (decide ((1.7 : ℚ) ≤ r.gpaNumeric.getD 0)) }
  let passed_courses_df := df3.filter fun r =>
    r.passed.getD false && decide ((0 : ℚ) < coerceCell r.credits)
  let total_earned_credits := (passed_courses_df.map fun r => coerceCell r.credits).sum
  let remaining_credits_to_graduate := max 0 (128 - total_earned_credits)
  (total_earned_credits, remaining_credits_to_graduate, passed_courses_df, df3)

/-- The `total_earned_credits` component of the analysis result. -/
def totalEarnedCredits (df : List Row) : ℚ := (analyze_student_grades df).1

/-- The `remaining_credits_to_graduate` component of the analysis result. -/
def remainingCredits (df : List Row) : ℚ := (analyze_student_grades df).2.1

/-- The `passed_courses_df` component of the analysis result. -/
def passedCourses (df : List Row) : List Row := (analyze_student_grades df).2.2.1

/-- Post-state of the caller's frame after `analyze_student_grades`
(the in-place column assignments). -/
def analyzedFrame (df : List Row) : List Row := (analyze_student_grades df).2.2.2

/-- A raw extracted table handed back by `tabula.read_pdf`: a grid of
cells (modelled post-`astype(str)`) with `ncols` columns
(`df_table.shape[1]`). -/
structure RawTable where
  ncols : ℕ
  rows : List (List String)

/-- The canonical schema labels assigned in `main`. -/
def expected_columns : List String :=
  ["學年度", "學期", "選課代號", "科目名稱", "學分", "GPA"]

/-- Whether the character list `pat` occurs as a contiguous sublist of
`l` (helper for the Python substring test). -/
def subOccurs (pat : List Char) : List Char → Bool
  | [] => pat.isEmpty
  | c :: t => pat.isPrefixOf (c :: t) || subOccurs pat t

/-- Model of pandas `.str.contains(pat)` / Python `pat in s` for a literal
pattern. -/
def strContains (s pat : String) : Bool :=
  subOccurs pat.data s.data

/-- Model of `re.match(r'^\d{3}$', s)` being truthy (pandas
`.str.match(r'^\d{3}$')`): the string is exactly three digits, optionally
followed by a single trailing newline (Python `$` also matches just before
a trailing newline). -/
def matchThreeDigits (s : String) : Bool :=
  match s.data with
  | [a, b, c] => a.isDigit && b.isDigit && c.isDigit
  | [a, b, c, d] => a.isDigit && b.isDigit && c.isDigit && (d == '\n')
  | _ => false

/-- The row filter of `main`, applied to the 學年度 cell of each row of an
assigned table:
```
df_table['學年度'].astype(str).str.match(r'^\d{3}$') &
~df_table['學年度'].astype(str).str.contains('勞作成績')
``` -/
def keepRow (year : String) : Bool :=
  matchThreeDigits year && !(strContains year "勞作成績")

/-- Labelling a raw row with the six canonical columns (a cell missing
from a short row is NaN, rendered "nan"). -/
def assignRow (row : List String) : Row :=
  { academicYear := row.getD 0 "nan"
    term := row.getD 1 "nan"
    courseCode := row.getD 2 "nan"
    courseName := row.getD 3 "nan"
    credits := Cell.str (row.getD 4 "nan")
    gpa := row.getD 5 "nan" }

/-- Per-table step of the loop in `main`:
* `shape[1] ≥ 6`: run `df_table.columns = expected_columns[:df_table.shape[1]]`.
  For `shape[1] > 6` that slice still has only 6 labels, so pandas raises
  `ValueError: Length mismatch`, which only the top-level handler catches —
  modelled as `Except.error`.  For `shape[1] = 6` the labels are assigned
  and the row filter `keepRow` is applied.
* `shape[1] < 6`: the table is skipped; `st.warning(...)` is reported
  (`Except.ok none`). -/
def processTable (t : RawTable) : Except String (Option (List Row)) :=
  if 6 ≤ t.ncols then
    if 6 < t.ncols then
      Except.error "Length mismatch"
    else
      Except.ok (some ((t.rows.filter fun row => keepRow (row.getD 0 "nan")).map assignRow))
  else
    Except.ok none

/-- The table loop of `main`: concatenates surviving rows of the processed
tables in encounter order (`pd.concat`), counts skipped-table warnings,
and propagates a raised exception. -/
def normalizeTables : List RawTable → Except String (List Row × ℕ)
  | [] => Except.ok ([], 0)
  | t :: ts =>
    match processTable t with
    | Except.error e => Except.error e
    | Except.ok none =>
        match normalizeTables ts with
        | Except.error e => Except.error e
        | Except.ok (rs, w) => Except.ok (rs, w + 1)
    | Except.ok (some rows) =>
        match normalizeTables ts with
        | Except.error e => Except.error e
        | Except.ok (rs, w) => Except.ok (rows ++ rs, w)

/-- A NaN cell after `astype(str)`. -/
def isNaNString (s : String) : Bool := s == "nan"

/-- A row in which every cell is NaN (`dropna(how='all')` target). -/
def rowAllNa (r : Row) : Bool :=
  isNaNString r.academicYear && isNaNString r.term && isNaNString r.courseCode &&
    isNaNString r.courseName && (decide (r.credits = Cell.str "nan")) && isNaNString r.gpa

/-- The whitespace-stripping loop of `main` applied to one row
(`full_grades_df[col].astype(str).str.strip()` for every column). -/
def stripRow (r : Row) : Row :=
  { r with academicYear := pyStrip r.academicYear
           term := pyStrip r.term
           courseCode := pyStrip r.courseCode
           courseName := pyStrip r.courseName
           credits := match r.credits with
                      | Cell.str s => Cell.str (pyStrip s)
                      | Cell.num q => Cell.num q
           gpa := pyStrip r.gpa }

/-- The whole normalization phase of `main`: the table loop, then
`dropna(how='all')`, then per-column whitespace stripping.  The result
pairs the normalized rows with the number of skipped-table warnings. -/
def mainNormalize (ts : List RawTable) : Except String (List Row × ℕ) :=
  match normalizeTables ts with
  | Except.error e => Except.error e
  | Except.ok (rs, w) => Except.ok (((rs.filter fun r => !(rowAllNa r)).map stripRow), w)

/-- Association-list lookup misses every key it is not listed under. -/
lemma lookup_eq_none_of_not_mem {β : Type} (k : String) (l : List (String × β))
    (h : k ∉ l.map Prod.fst) : l.lookup k = none := by
  induction l with
  | nil => rfl
  | cons p t ih =>
    obtain ⟨a, b⟩ := p
    simp only [List.map_cons, List.mem_cons, not_or] at h
    have hk : (k == a) = false := beq_eq_false_iff_ne.mpr h.1
    simp [List.lookup, hk, ih h.2]

/-- The post-state of the analyzed frame, as a single pass over the input. -/
lemma analyzedFrame_eq (df : List Row) :
    analyzedFrame df = df.map fun r =>
      { r with credits := Cell.num (coerceCell r.credits),
               gpaNumeric := some (parse_gpa_to_numeric r.gpa),
               passed := some (decide ((1.7 : ℚ) ≤ parse_gpa_to_numeric r.gpa)) } := by
  simp only [analyzedFrame, analyze_student_grades, List.map_map]
  rfl

/-- The passed-course frame, as a filter over the input. -/
lemma passedCourses_eq (df : List Row) :
    passedCourses df = (df.filter fun r =>
        decide ((1.7 : ℚ) ≤ parse_gpa_to_numeric r.gpa) &&
          decide ((0 : ℚ) < coerceCell r.credits)).map fun r =>
      { r with credits := Cell.num (coerceCell r.credits),
               gpaNumeric := some (parse_gpa_to_numeric r.gpa),
               passed := some (decide ((1.7 : ℚ) ≤ parse_gpa_to_numeric r.gpa)) } := by
  simp only [passedCourses, analyze_student_grades, List.map_map, List.filter_map]
  rfl

/-- The earned total, as a sum over the filtered input. -/
lemma total_eq (df : List Row) :
    totalEarnedCredits df = ((df.filter fun r =>
        decide ((1.7 : ℚ) ≤ parse_gpa_to_numeric r.gpa) &&
          decide ((0 : ℚ) < coerceCell r.credits)).map fun r => coerceCell r.credits).sum := by
  simp only [totalEarnedCredits, analyze_student_grades, List.map_map, List.filter_map]
  rfl

/-- The remaining-credit figure in terms of the total. -/
lemma remaining_eq (df : List Row) :
    remainingCredits df = max 0 (128 - totalEarnedCredits df) := rfl

/-- Only strictly positive credit values are summed, so the total is
nonnegative. -/
lemma total_nonneg (df : List Row) : 0 ≤ totalEarnedCredits df := by
  rw [total_eq]
  refine List.sum_nonneg ?_
  intro x hx
  simp only [List.mem_map, List.mem_filter] at hx
  obtain ⟨r, ⟨-, hr⟩, rfl⟩ := hx
  simp only [Bool.and_eq_true, decide_eq_true_eq] at hr
  exact le_of_lt hr.2

/-- The normalized row produced from a table row whose credits cell reads
"-3" (used to exhibit negative coerced credits). -/
def negCreditRow : Row :=
  { academicYear := "112", term := "1", courseCode := "CS101",
    courseName := "Intro", credits := Cell.str "-3", gpa := "A" }

/-- C1: a record is counted as passing iff its mapped grade-point value is
at least 1.7 and its credits value is strictly positive, and
`totalEarnedCredits` is the sum of the credits of exactly those records;
in particular a zero-credit record with the credit-equivalent grade 通過
(grade point 999.0) contributes nothing to the total. -/
theorem C1_total_is_sum_of_passing_credits :
    (∀ df : List Row, totalEarnedCredits df = ((df.filter fun r =>
        decide ((1.7 : ℚ) ≤ parse_gpa_to_numeric r.gpa) &&
          decide ((0 : ℚ) < coerceCell r.credits)).map fun r => coerceCell r.credits).sum)
    ∧ totalEarnedCredits [{ academicYear := "112", term := "1", courseCode := "SRV1",
                            courseName := "Service", credits := Cell.str "0",
                            gpa := "通過" }] = 0 :=
  ⟨total_eq, by
    rw [total_eq]
    norm_num [List.filter_cons, show parse_gpa_to_numeric "通過" = 999.0 from rfl,
      show coerceCell (Cell.str "0") = 0 from by decide]⟩

/-- C2: the grade-to-point lookup returns exactly the fixed table's
constant for every grade in the table, and 0.0 for every string whose
trimmed form is not a table key. -/
theorem C2_gpa_table_and_default :
    (parse_gpa_to_numeric "A+" = 4.3 ∧ parse_gpa_to_numeric "A" = 4.0 ∧
     parse_gpa_to_numeric "A-" = 3.7 ∧ parse_gpa_to_numeric "B+" = 3.3 ∧
     parse_gpa_to_numeric "B" = 3.0 ∧ parse_gpa_to_numeric "B-" = 2.7 ∧
     parse_gpa_to_numeric "C+" = 2.3 ∧ parse_gpa_to_numeric "C" = 2.0 ∧
     parse_gpa_to_numeric "C-" = 1.7 ∧ parse_gpa_to_numeric "D+" = 1.3 ∧
     parse_gpa_to_numeric "D" = 1.0 ∧ parse_gpa_to_numeric "D-" = 0.7 ∧
     parse_gpa_to_numeric "E" = 0.0 ∧ parse_gpa_to_numeric "F" = 0.0 ∧
     parse_gpa_to_numeric "抵免" = 999.0 ∧ parse_gpa_to_numeric "通過" = 999.0)
    ∧ ∀ s : String, pyStrip s ∉ gpa_map.map Prod.fst → parse_gpa_to_numeric s = 0.0 := by
  refine ⟨⟨rfl, rfl, rfl, rfl, rfl, rfl, rfl, rfl, rfl, rfl, rfl, rfl, rfl, rfl, rfl, rfl⟩, ?_⟩
  intro s hs
  unfold parse_gpa_to_numeric
  rw [lookup_eq_none_of_not_mem _ _ hs]
  rfl

/-- Witness for C2: "W" is not a table key and maps to 0.0. -/
theorem C2_witness : parse_gpa_to_numeric "W" = 0.0 :=
  C2_gpa_table_and_default.2 "W" (by decide)

/-- C3: the remaining-credit figure equals `max(0, 128 − total)` for every
input; when the total exceeds 128 it is 0, and it is never negative. -/
theorem C3_remaining_is_clamped_difference :
    ∀ df : List Row,
      remainingCredits df = max 0 (128 - totalEarnedCredits df) ∧
        (128 < totalEarnedCredits df → remainingCredits df = 0) ∧
        0 ≤ remainingCredits df := by
  intro df
  refine ⟨remaining_eq df, fun h => ?_, ?_⟩
  · rw [remaining_eq]
    exact max_eq_left (by linarith)
  · rw [remaining_eq]
    exact le_max_left _ _

/-- Witness for C3: a single 130-credit passed course exceeds 128, and the
remaining figure clamps to 0. -/
theorem C3_witness :
    remainingCredits [{ academicYear := "112", term := "1", courseCode := "CS999",
                        courseName := "Mega", credits := Cell.str "130", gpa := "A" }] = 0 :=
  (C3_remaining_is_clamped_difference _).2.1 (by
    rw [total_eq]
    norm_num [List.filter_cons, show parse_gpa_to_numeric "A" = 4.0 from rfl,
      show coerceCell (Cell.str "130") = 130 from by decide])

/-- C4 (code bug): a table with more than 6 columns does not get its first
6 columns labelled with the extras discarded — the slice
`expected_columns[:shape[1]]` still has only 6 labels, pandas raises
`ValueError: Length mismatch`, and the whole run aborts, so a later
6-column table is never processed.  Tables with fewer than 6 columns are,
as claimed, skipped with one advisory warning while remaining tables are
processed. -/
theorem C4_wide_table_aborts_run :
    mainNormalize [⟨7, [["112", "1", "CS101", "Intro", "3", "A", "x"]]⟩,
        ⟨6, [["112", "1", "CS102", "Lab", "1", "B"]]⟩] = Except.error "Length mismatch"
    ∧ mainNormalize [⟨5, [["112", "1", "CS101", "3", "A"]]⟩,
        ⟨6, [["112", "1", "CS102", "Lab", "1", "B"]]⟩]
      = Except.ok ([{ academicYear := "112", term := "1", courseCode := "CS102",
                      courseName := "Lab", credits := Cell.str "1", gpa := "B" }], 1) :=
  ⟨rfl, rfl⟩

/-- C5 counterexample: the row filter matches `^\d{3}$` against the raw
學年度 cell (whitespace stripping happens only after filtering), so a row
whose cell is " 112" — exactly three digits after trimming, no 勞作成績
marker — is dropped, contradicting the claimed iff. -/
theorem C5_cex_leading_space_dropped :
    mainNormalize [⟨6, [[" 112", "1", "CS101", "Intro", "3", "A"]]⟩] = Except.ok ([], 0)
    ∧ matchThreeDigits (pyStrip " 112") = true
    ∧ strContains " 112" "勞作成績" = false :=
  ⟨rfl, by decide, by decide⟩

/-- C5 amended: a row of an assigned (6-column) table is retained iff its
raw, untrimmed 學年度 cell matches `^\d{3}$` and does not contain the
勞作成績 marker; failing rows are dropped silently (no warning).  "112" is
kept, "abc" and a 勞作成績為:未通過 summary row are dropped. -/
theorem C5_row_filter_on_raw_cell :
    (∀ rows : List (List String),
        normalizeTables [⟨6, rows⟩]
          = Except.ok (((rows.filter fun row => keepRow (row.getD 0 "nan")).map assignRow), 0))
    ∧ (∀ y : String, keepRow y = (matchThreeDigits y && !(strContains y "勞作成績")))
    ∧ mainNormalize [⟨6, [["112", "1", "CS101", "Intro", "3", "B"],
          ["abc", "1", "x", "y", "3", "B"],
          ["勞作成績為:未通過", "", "", "", "", ""]]⟩]
      = Except.ok ([{ academicYear := "112", term := "1", courseCode := "CS101",
                      courseName := "Intro", credits := Cell.str "3", gpa := "B" }], 0) := by
  refine ⟨fun rows => ?_, fun y => rfl, rfl⟩
  simp [normalizeTables, processTable]

/-- C6 counterexample: a 學年度-valid row whose credits cell is "-3"
survives normalization, and the credit coercion in
`analyze_student_grades` yields the negative number −3, which persists in
the analyzed frame — the claimed ≥ 0 invariant fails. -/
theorem C6_cex_negative_credits_survive :
    mainNormalize [⟨6, [["112", "1", "CS101", "Intro", "-3", "A"]]⟩]
      = Except.ok ([negCreditRow], 0)
    ∧ coerceCell negCreditRow.credits < 0
    ∧ ((analyzedFrame [negCreditRow]).map fun r => decide (coerceCell r.credits < 0)) = [true] :=
  ⟨rfl, by decide, by decide⟩

/-- C6 amended: after the credit coercion every record's credits value is
numeric — unparseable text (including NaN cells) becomes 0 — but a cell
parsing as a negative number keeps its negative value, so only
numericness, not the claimed ≥ 0 bound, holds. -/
theorem C6_credits_numeric_after_coercion :
    (∀ df : List Row, ((analyzedFrame df).all fun r => r.credits.isNum) = true)
    ∧ coerceCell (Cell.str "abc") = 0 ∧ coerceCell (Cell.str "nan") = 0 := by
  refine ⟨fun df => ?_, rfl, rfl⟩
  rw [analyzedFrame_eq, List.all_eq_true]
  intro x hx
  simp only [List.mem_map] at hx
  obtain ⟨r, -, rfl⟩ := hx
  rfl

/-- C7 counterexample: analyzing a one-row frame changes the caller's
frame in place (among other changes, the 是否通過 column appears), so the
post-state of the input differs from the input. -/
theorem C7_cex_frame_mutated :
    analyzedFrame [{ academicYear := "112", term := "1", courseCode := "CS101",
                     courseName := "Intro", credits := Cell.str "3", gpa := "A" }]
      ≠ [{ academicYear := "112", term := "1", courseCode := "CS101",
           courseName := "Intro", credits := Cell.str "3", gpa := "A" }] := by
  intro h
  have h2 := congrArg (fun l => l.map fun r : Row => r.passed.isSome) h
  simp [analyzedFrame_eq] at h2

/-- C7 amended: the analysis is deterministic but mutates the caller's
frame: it overwrites the 學分 column with its numeric coercion and adds
the GPA_Numeric and 是否通過 columns, while preserving the row count, row
order and every other original field. -/
theorem C7_mutation_is_column_updates_only :
    ∀ df : List Row,
      analyzedFrame df = df.map (fun r =>
        { r with credits := Cell.num (coerceCell r.credits),
                 gpaNumeric := some (parse_gpa_to_numeric r.gpa),
                 passed := some (decide ((1.7 : ℚ) ≤ parse_gpa_to_numeric r.gpa)) })
      ∧ (analyzedFrame df).map
            (fun r => (r.academicYear, r.term, r.courseCode, r.courseName, r.gpa))
          = df.map (fun r => (r.academicYear, r.term, r.courseCode, r.courseName, r.gpa))
      ∧ (analyzedFrame df).length = df.length := by
  intro df
  refine ⟨analyzedFrame_eq df, ?_, ?_⟩
  · rw [analyzedFrame_eq, List.map_map]
    rfl
  · rw [analyzedFrame_eq, List.length_map]

/-- C8: analyzing an empty record sequence is a valid result, not an
error: total 0, remaining 128, no passed courses. -/
theorem C8_empty_input_is_valid :
    totalEarnedCredits [] = 0 ∧ remainingCredits [] = 128 ∧ passedCourses [] = [] := by
  refine ⟨rfl, ?_, rfl⟩
  rw [remaining_eq, show totalEarnedCredits [] = 0 from rfl]
  norm_num

/-- C9: the grade lookup is exact and case-sensitive after trimming only
outer whitespace: any string whose trimmed form is not literally a table
key maps to 0.0; the lowercase variants of all letter-grade keys and an
internal-whitespace spelling miss the table, while a variant differing
only by outer whitespace still hits it. -/
theorem C9_lookup_case_sensitive :
    (∀ s : String, pyStrip s ∉ gpa_map.map Prod.fst → parse_gpa_to_numeric s = 0.0)
    ∧ (["a+", "a", "a-", "b+", "b", "b-", "c+", "c", "c-", "d+", "d", "d-",
        "e", "f", "B +", "A -"].all fun g => (gpa_map.lookup (pyStrip g)).isNone) = true
    ∧ parse_gpa_to_numeric "b+" = 0.0 ∧ parse_gpa_to_numeric "B +" = 0.0
    ∧ parse_gpa_to_numeric " B+ " = 3.3 := by
  refine ⟨?_, by decide, rfl, rfl, rfl⟩
  intro s hs
  unfold parse_gpa_to_numeric
  rw [lookup_eq_none_of_not_mem _ _ hs]
  rfl

/-- Witness for C9: the lowercase variant "a-" of the key "A-" maps to
0.0. -/
theorem C9_witness : parse_gpa_to_numeric "a-" = 0.0 :=
  C9_lookup_case_sensitive.1 "a-" (by decide)

/-- C10: for every input — including one whose coerced credits value is
negative — the total is nonnegative and the remaining figure lies in
[0, 128], because only strictly positive credits are summed. -/
theorem C10_totals_bounded :
    (∀ df : List Row,
        0 ≤ totalEarnedCredits df ∧ 0 ≤ remainingCredits df ∧ remainingCredits df ≤ 128)
    ∧ totalEarnedCredits [negCreditRow] = 0 := by
  constructor
  · intro df
    have ht := total_nonneg df
    refine ⟨ht, ?_, ?_⟩
    · rw [remaining_eq]
      exact le_max_left _ _
    · rw [remaining_eq]
      refine max_le (by norm_num) (by linarith)
  · rw [total_eq]
    norm_num [List.filter_cons, negCreditRow, show parse_gpa_to_numeric "A" = 4.0 from rfl,
      show ¬ ((0 : ℚ) < coerceCell (Cell.str "-3")) from by decide]
